import Mathlib

/-!
Shallow embedding of the skin-tone advisor core
(`app/services/image_service.py`, `app/models/color_model.py`,
`app/core/error_handling.py`) and proofs about it.

Modelling conventions:
* 8-bit channel values are `ℕ` (the uint8 range is an invariant of the data,
  stated where a claim needs it).
* Floating-point means and scaling factors are modelled as exact rationals
  (`ℚ`).  numpy's mean of an empty slice is NaN; both NaN and 0 fail the
  `> 0` guard in `adjust_skin_tone`, so modelling the empty mean as the
  rational 0 preserves the guard's branching exactly.
* Library calls that are external to this repository (OpenCV colour-space
  conversions, skimage's rgb2lab lightness, ColorThief quantization) are
  parameters of the embedding, collected in `Collaborators`.
* Python exception flow is modelled with `Except` / an explicit wrapper for
  the `try/except` blocks.
-/

namespace SkinApp

/-- An RGB pixel: three 8-bit channel intensities (`color_model.py` colors,
`image_service.py` decoded pixels). -/
structure RGB where
  r : ℕ
  g : ℕ
  b : ℕ
deriving DecidableEq, Repr

/-- A pixel in OpenCV's 8-bit HSV representation. -/
structure HSV where
  h : ℕ
  s : ℕ
  v : ℕ
deriving DecidableEq, Repr

/-- The seven skin-tone categories of `SkinTone(Enum)` in `color_model.py`. -/
inductive SkinTone where
  | VERY_LIGHT
  | LIGHT
  | MEDIUM_LIGHT
  | MEDIUM
  | MEDIUM_DARK
  | DARK
  | VERY_DARK
deriving DecidableEq, Repr

/-- Error codes of `ErrorCode(Enum)` in `error_handling.py`. -/
inductive ErrorCode where
  | VALIDATION_ERROR
  | PROCESSING_ERROR
  | FILE_ERROR
  | IMAGE_PROCESSING_ERROR
deriving DecidableEq, Repr

/-- The `ApplicationError` exception of `error_handling.py`: message, error
code, and a details map (modelled as an association list of strings). -/
structure ApplicationError where
  message : String
  error_code : ErrorCode
  details : List (String × String)
deriving DecidableEq, Repr

/-- A decoded image: a row-major grid of RGB pixels. -/
abbrev Img : Type := List (List RGB)

/-- External library collaborators used by `image_service.py`: OpenCV's
colour-space conversions, skimage's `rgb2lab` lightness (of the channel
values normalised by 255), and ColorThief's dominant colour / palette
quantization.  They are outside this repository, so the embedding takes
them as parameters. -/
structure Collaborators where
  rgb2hsv : RGB → HSV
  hsv2rgb : HSV → RGB
  labLightness : RGB → ℚ
  dominantColor : Img → RGB
  palette5 : Img → List RGB

/-- One lowercase hexadecimal digit, as produced by Python's `x` format. -/
def hexDigit (n : ℕ) : Char :=
  if n < 10 then Char.ofNat (48 + n) else Char.ofNat (87 + n)

/-- Two-digit lowercase hex of a byte: Python's `02x` format for values in
[0, 255]. -/
def hexByte (n : ℕ) : String :=
  String.mk [hexDigit (n / 16 % 16), hexDigit (n % 16)]

/-- The hex string of a colour as built by the f-strings of the source:
a hash sign followed by three two-digit lowercase hex bytes. -/
def hexColor (c : RGB) : String :=
  "#" ++ hexByte c.r ++ hexByte c.g ++ hexByte c.b

/-- The fixed HSV skin gate of `image_service.py`:
`cv2.inRange(image_hsv, [0, 20, 70], [20, 255, 255])` selects a pixel when
every channel lies inclusively between the corresponding bounds. -/
def inSkinRange (p : HSV) : Bool :=
  (0 ≤ p.h && p.h ≤ 20) && (20 ≤ p.s && p.s ≤ 255) && (70 ≤ p.v && p.v ≤ 255)

/-- Lightness thresholds of `detect_skin_tone` (lines 124-137): descending
strict comparisons on the L* value. -/
def classifyLightness (lightness : ℚ) : SkinTone :=
  if lightness > 85 then SkinTone.VERY_LIGHT
  else if lightness > 75 then SkinTone.LIGHT
  else if lightness > 65 then SkinTone.MEDIUM_LIGHT
  else if lightness > 55 then SkinTone.MEDIUM
  else if lightness > 45 then SkinTone.MEDIUM_DARK
  else if lightness > 35 then SkinTone.DARK
  else SkinTone.VERY_DARK

/-- Per-channel integer mean as computed by
`np.mean(skin_pixels, axis=0).astype(int)`: the float mean of non-negative
bytes truncated toward zero, i.e. floor, i.e. `ℕ` division. -/
def avgColor (ps : List RGB) : RGB :=
  ⟨(ps.map RGB.r).sum / ps.length,
   (ps.map RGB.g).sum / ps.length,
   (ps.map RGB.b).sum / ps.length⟩

/-- The RGB pixels of an image that pass the skin gate (row-major order), as
selected by `skin_only[np.where(skin_mask > 0)]` in `detect_skin_tone`. -/
def skinPixelsOf (C : Collaborators) (img : Img) : List RGB :=
  (List.flatten img).filter (fun p => inSkinRange (C.rgb2hsv p))

/-- Metadata returned by `detect_skin_tone` alongside the classification. -/
structure SkinMetadata where
  avg_skin_color : RGB
  avg_skin_hex : String
  dominant_color : RGB
  dominant_hex : String
  palette : List (RGB × String)
  lightness : ℚ
deriving DecidableEq, Repr

/-- Embedding of `ImageService.detect_skin_tone`.  The `Option` input models
the result of `cv2.imread`: `none` is an image that could not be
decoded/loaded, which raises `ApplicationError` with code
`IMAGE_PROCESSING_ERROR`.  Otherwise the skin mask is applied; the average
skin colour is the truncated per-channel mean over masked pixels when the
mask is non-empty, else ColorThief's dominant colour; the L* lightness of
that colour picks the tone. -/
def detect_skin_tone (C : Collaborators) (loaded : Option Img) :
    Except ApplicationError (SkinTone × SkinMetadata) :=
  match loaded with
  | none => Except.error ⟨"Failed to load image", ErrorCode.IMAGE_PROCESSING_ERROR, []⟩
  | some img =>
    let dominant := C.dominantColor img
    let skin := skinPixelsOf C img
    let avg : RGB := if skin.length > 0 then avgColor skin else dominant
    let lightness := C.labLightness avg
    Except.ok (classifyLightness lightness,
      ⟨avg, hexColor avg, dominant, hexColor dominant,
       (C.palette5 img).map (fun c => (c, hexColor c)), lightness⟩)

/-- A Python exception reaching the `except` clauses of `image_service.py`:
either an `ApplicationError` or any other exception carrying its text. -/
inductive PyError where
  | app (e : ApplicationError)
  | other (text : String)

/-- Embedding of the `try/except` tail of `detect_skin_tone`
(lines 161-169): `ApplicationError` is re-raised unchanged; any other
exception is wrapped into an `ApplicationError` with code
`IMAGE_PROCESSING_ERROR` whose details carry the original error text. -/
def wrapDetectError : PyError → ApplicationError
  | PyError.app e => e
  | PyError.other t =>
      ⟨"Failed to detect skin tone", ErrorCode.IMAGE_PROCESSING_ERROR,
       [("original_error", t)]⟩

/-- The `target_hsv_values` table of `adjust_skin_tone` (lines 209-217). -/
def target_hsv_values : SkinTone → HSV
  | SkinTone.VERY_LIGHT => ⟨0, 30, 240⟩
  | SkinTone.LIGHT => ⟨0, 40, 230⟩
  | SkinTone.MEDIUM_LIGHT => ⟨0, 50, 220⟩
  | SkinTone.MEDIUM => ⟨0, 60, 200⟩
  | SkinTone.MEDIUM_DARK => ⟨0, 70, 180⟩
  | SkinTone.DARK => ⟨0, 80, 160⟩
  | SkinTone.VERY_DARK => ⟨0, 90, 140⟩

/-- Exact rational mean of a list of channel values.  numpy's mean of an
empty slice is NaN; NaN and the rational 0 (Lean's value for `sum [] / 0`)
behave identically under the only use site, the `> 0` guard below. -/
def meanQ (xs : List ℕ) : ℚ := (xs.sum : ℚ) / xs.length

/-- One per-channel scaling factor of `adjust_skin_tone` (lines 232-234):
`target / mean` when the mean of the channel over skin pixels is positive,
else 1. -/
def channelFactor (target : ℕ) (xs : List ℕ) : ℚ :=
  if meanQ xs > 0 then (target : ℚ) / meanQ xs else 1

/-- Clamp to [0, 255]: `np.clip(x, 0, 255)` on one value. -/
def clip255 (x : ℚ) : ℚ := max 0 (min x 255)

/-- One adjusted channel value (lines 240-244): the channel is scaled by its
factor, clipped to [0, 255] (the hue row has no inner clip but the outer
`np.clip` applies to all three rows), and stored back into the uint8 array,
which truncates the non-negative clipped float, i.e. takes its floor. -/
def adjChannel (c : ℕ) (factor : ℚ) : ℕ := ⌊clip255 (c * factor)⌋.toNat

/-- Pixel-level effect of `adjusted_hsv[skin_pixels] = ...`: pixels passing
the skin gate get all three channels scaled and clipped; all other pixels
keep their HSV value from `image_hsv.copy()`. -/
def adjustPixel (hf sf vf : ℚ) (p : HSV) : HSV :=
  if inSkinRange p then ⟨adjChannel p.h hf, adjChannel p.s sf, adjChannel p.v vf⟩ else p

/-- The HSV image `image_hsv = cv2.cvtColor(image_rgb, cv2.COLOR_RGB2HSV)`. -/
def hsvImage (C : Collaborators) (img : Img) : List (List HSV) :=
  img.map (fun row => row.map C.rgb2hsv)

/-- HSV values of the skin pixels, `skin_hsv = image_hsv[skin_pixels]`,
in row-major order. -/
def skinHSV (C : Collaborators) (img : Img) : List HSV :=
  (List.flatten (hsvImage C img)).filter (fun p => inSkinRange p)

/-- The hue scaling factor `h_factor` for an image and target tone. -/
def hFactor (C : Collaborators) (tone : SkinTone) (img : Img) : ℚ :=
  channelFactor (target_hsv_values tone).h ((skinHSV C img).map HSV.h)

/-- The saturation scaling factor `s_factor`. -/
def sFactor (C : Collaborators) (tone : SkinTone) (img : Img) : ℚ :=
  channelFactor (target_hsv_values tone).s ((skinHSV C img).map HSV.s)

/-- The value scaling factor `v_factor`. -/
def vFactor (C : Collaborators) (tone : SkinTone) (img : Img) : ℚ :=
  channelFactor (target_hsv_values tone).v ((skinHSV C img).map HSV.v)

/-- The reassembled HSV image `adjusted_hsv` (lines 237-244): a copy of
`image_hsv` in which every masked pixel is replaced by its adjusted value. -/
def adjustedHSV (C : Collaborators) (tone : SkinTone) (img : Img) : List (List HSV) :=
  (hsvImage C img).map (fun row =>
    row.map (adjustPixel (hFactor C tone img) (sFactor C tone img) (vFactor C tone img)))

/-- The output image `adjusted_rgb = cv2.cvtColor(adjusted_hsv,
cv2.COLOR_HSV2RGB)`. -/
def adjustedRGB (C : Collaborators) (tone : SkinTone) (img : Img) : Img :=
  (adjustedHSV C tone img).map (fun row => row.map C.hsv2rgb)

/-- Embedding of `ImageService.adjust_skin_tone`: an undecodable image
(`cv2.imread` returning `None`) raises `ApplicationError` with code
`IMAGE_PROCESSING_ERROR`; otherwise the adjusted image is produced and
returned (the source then saves it to a fresh path and returns the path;
the pixel data is what the embedding returns). -/
def adjust_skin_tone (C : Collaborators) (target_tone : SkinTone)
    (loaded : Option Img) : Except ApplicationError Img :=
  match loaded with
  | none => Except.error ⟨"Failed to load image", ErrorCode.IMAGE_PROCESSING_ERROR, []⟩
  | some img => Except.ok (adjustedRGB C target_tone img)

/-- The fixed named-colour table of `ColorPalette.get_color_name`
(lines 141-168), in the source's insertion order (Python dicts iterate in
insertion order). -/
def color_names : List (RGB × String) :=
  [(⟨0, 0, 0⟩, "Black"),
   (⟨255, 255, 255⟩, "White"),
   (⟨255, 0, 0⟩, "Red"),
   (⟨0, 255, 0⟩, "Green"),
   (⟨0, 0, 255⟩, "Blue"),
   (⟨255, 255, 0⟩, "Yellow"),
   (⟨255, 0, 255⟩, "Magenta"),
   (⟨0, 255, 255⟩, "Cyan"),
   (⟨128, 0, 0⟩, "Maroon"),
   (⟨0, 128, 0⟩, "Dark Green"),
   (⟨0, 0, 128⟩, "Navy"),
   (⟨128, 128, 0⟩, "Olive"),
   (⟨128, 0, 128⟩, "Purple"),
   (⟨0, 128, 128⟩, "Teal"),
   (⟨255, 165, 0⟩, "Orange"),
   (⟨255, 215, 0⟩, "Gold"),
   (⟨255, 192, 203⟩, "Pink"),
   (⟨219, 112, 147⟩, "Pale Violet Red"),
   (⟨205, 92, 92⟩, "Indian Red"),
   (⟨233, 150, 122⟩, "Dark Salmon"),
   (⟨250, 128, 114⟩, "Salmon"),
   (⟨255, 99, 71⟩, "Tomato"),
   (⟨255, 69, 0⟩, "Orange Red"),
   (⟨255, 140, 0⟩, "Dark Orange"),
   (⟨255, 182, 193⟩, "Light Pink"),
   (⟨255, 228, 225⟩, "Misty Rose")]

/-- Squared Euclidean distance between two colours.  The source compares
`np.sqrt` of these integers as float64; square root is strictly monotone and
float64 square roots of distinct integers in the attainable range
(0 to 3 * 255 ^ 2) are distinct, so comparisons of the source's distances
and of these squared distances agree. -/
def distSq (a b : RGB) : ℤ :=
  ((a.r : ℤ) - b.r) ^ 2 + ((a.g : ℤ) - b.g) ^ 2 + ((a.b : ℤ) - b.b) ^ 2

/-- The running `distance < min_distance` test: `none` models the initial
`float('inf')`, which every distance beats. -/
def betterDist (d : ℤ) : Option ℤ → Bool
  | none => true
  | some m => d < m

/-- One step of the search loop of `get_color_name`: update the running
(minimum distance, closest name) pair when the strict comparison fires. -/
def nameStep (rgb : RGB) (best : Option ℤ × String) (entry : RGB × String) :
    Option ℤ × String :=
  if betterDist (distSq rgb entry.1) best.1 then (some (distSq rgb entry.1), entry.2) else best

/-- Embedding of `ColorPalette.get_color_name`: fold the strict-improvement
search over the table, starting at infinite distance and name "Unknown". -/
def get_color_name (rgb : RGB) : String :=
  (color_names.foldl (nameStep rgb) (none, "Unknown")).2

/-- One recommended colour entry as built by `get_recommendations`: the RGB
triple, its hex string, and its nearest-table name. -/
structure ColorEntry where
  rgb : RGB
  hex : String
  name : String
deriving DecidableEq, Repr

/-- The `ColorPalette.RECOMMENDATIONS` table (lines 21-135): per skin tone,
the category lists in source order ("clothing" then "makeup"). -/
def RECOMMENDATIONS : List (SkinTone × List (String × List RGB)) :=
  [(SkinTone.VERY_LIGHT,
    [("clothing", [⟨0, 0, 0⟩, ⟨0, 0, 128⟩, ⟨128, 0, 0⟩, ⟨0, 100, 0⟩, ⟨128, 0, 128⟩]),
     ("makeup", [⟨255, 182, 193⟩, ⟨255, 228, 225⟩, ⟨255, 192, 203⟩, ⟨219, 112, 147⟩])]),
   (SkinTone.LIGHT,
    [("clothing", [⟨0, 0, 0⟩, ⟨0, 0, 128⟩, ⟨128, 0, 0⟩, ⟨0, 100, 0⟩, ⟨128, 0, 128⟩, ⟨255, 0, 0⟩]),
     ("makeup", [⟨255, 182, 193⟩, ⟨255, 228, 225⟩, ⟨255, 192, 203⟩, ⟨219, 112, 147⟩, ⟨205, 92, 92⟩])]),
   (SkinTone.MEDIUM_LIGHT,
    [("clothing", [⟨0, 0, 0⟩, ⟨0, 0, 128⟩, ⟨128, 0, 0⟩, ⟨0, 100, 0⟩, ⟨255, 0, 0⟩, ⟨255, 165, 0⟩]),
     ("makeup", [⟨255, 192, 203⟩, ⟨219, 112, 147⟩, ⟨205, 92, 92⟩, ⟨233, 150, 122⟩])]),
   (SkinTone.MEDIUM,
    [("clothing", [⟨0, 0, 0⟩, ⟨0, 0, 128⟩, ⟨255, 0, 0⟩, ⟨255, 165, 0⟩, ⟨255, 215, 0⟩, ⟨255, 255, 255⟩]),
     ("makeup", [⟨219, 112, 147⟩, ⟨205, 92, 92⟩, ⟨233, 150, 122⟩, ⟨250, 128, 114⟩])]),
   (SkinTone.MEDIUM_DARK,
    [("clothing", [⟨0, 0, 0⟩, ⟨255, 0, 0⟩, ⟨255, 165, 0⟩, ⟨255, 215, 0⟩, ⟨255, 255, 255⟩, ⟨0, 255, 255⟩]),
     ("makeup", [⟨205, 92, 92⟩, ⟨233, 150, 122⟩, ⟨250, 128, 114⟩, ⟨255, 99, 71⟩])]),
   (SkinTone.DARK,
    [("clothing", [⟨255, 0, 0⟩, ⟨255, 165, 0⟩, ⟨255, 215, 0⟩, ⟨255, 255, 255⟩, ⟨0, 255, 255⟩, ⟨255, 192, 203⟩]),
     ("makeup", [⟨233, 150, 122⟩, ⟨250, 128, 114⟩, ⟨255, 99, 71⟩, ⟨255, 69, 0⟩])]),
   (SkinTone.VERY_DARK,
    [("clothing", [⟨255, 0, 0⟩, ⟨255, 165, 0⟩, ⟨255, 215, 0⟩, ⟨255, 255, 255⟩, ⟨0, 255, 255⟩, ⟨255, 192, 203⟩, ⟨255, 255, 0⟩]),
     ("makeup", [⟨250, 128, 114⟩, ⟨255, 99, 71⟩, ⟨255, 69, 0⟩, ⟨255, 140, 0⟩])])]

/-- Embedding of `ColorPalette.get_recommendations`:
`RECOMMENDATIONS.get(skin_tone, RECOMMENDATIONS[SkinTone.MEDIUM])` followed
by annotating every colour of every category with its hex string and its
nearest-table name. -/
def get_recommendations (skin_tone : SkinTone) : List (String × List ColorEntry) :=
  let recommendations :=
    (RECOMMENDATIONS.lookup skin_tone).getD
      ((RECOMMENDATIONS.lookup SkinTone.MEDIUM).getD [])
  recommendations.map (fun cat =>
    (cat.1, cat.2.map (fun c => ⟨c, hexColor c, get_color_name c⟩)))

/-- The "clothing" list of a tone's recommendations. -/
def clothingOf (t : SkinTone) : List ColorEntry :=
  ((get_recommendations t).lookup "clothing").getD []

/-- The "makeup" list of a tone's recommendations. -/
def makeupOf (t : SkinTone) : List ColorEntry :=
  ((get_recommendations t).lookup "makeup").getD []

/-- Character test: a lowercase hexadecimal digit (0-9 or a-f). -/
def isLowerHexDigit (c : Char) : Bool :=
  (48 ≤ c.toNat && c.toNat ≤ 57) || (97 ≤ c.toNat && c.toNat ≤ 102)

/-- A well-formed colour code: a hash sign followed by exactly six lowercase
hex digits. -/
def wellFormedHexCode (s : String) : Bool :=
  s.length = 7 && s.toList.head? = some '#' && (s.toList.drop 1).all isLowerHexDigit

/-- Concrete collaborator instance used by witnesses: the field-by-field
transcription between RGB and HSV (whose round trip is the identity), a
constant lightness, a fixed dominant colour and an empty palette. -/
def idCollab : Collaborators where
  rgb2hsv := fun p => ⟨p.r, p.g, p.b⟩
  hsv2rgb := fun p => ⟨p.h, p.s, p.v⟩
  labLightness := fun _ => 0
  dominantColor := fun _ => ⟨0, 0, 0⟩
  palette5 := fun _ => []

/-- A one-pixel image whose pixel fails the skin gate under `idCollab`
(hue 200 exceeds the upper hue bound 20). -/
def nonSkinImg : Img := [[⟨200, 200, 200⟩]]

/-- A two-pixel image: one pixel passes the skin gate under `idCollab`
(hue 10, saturation 30, value 100), one does not (hue 200). -/
def mixedImg : Img := [[⟨10, 30, 100⟩, ⟨200, 200, 200⟩]]

deriving instance DecidableEq for Except

example : skinHSV idCollab nonSkinImg = [] := by decide
example : skinHSV idCollab mixedImg = [⟨10, 30, 100⟩] := by decide
example : get_color_name ⟨0, 0, 0⟩ = "Black" := by decide
example : get_color_name ⟨255, 255, 255⟩ = "White" := by decide
example : adjust_skin_tone idCollab SkinTone.MEDIUM (some nonSkinImg) = Except.ok nonSkinImg := by decide
example : hexColor ⟨255, 182, 193⟩ = "#ffb6c1" := by decide
example : wellFormedHexCode "#ffb6c1" = true := by decide

/-- Helper: the clip never produces a value above 255. -/
lemma clip255_le (x : ℚ) : clip255 x ≤ 255 :=
  max_le (by norm_num) (min_le_right x 255)

/-- Helper: an adjusted channel value is at most 255. -/
lemma adjChannel_le (c : ℕ) (f : ℚ) : adjChannel c f ≤ 255 := by
  have h : ⌊clip255 ((c : ℚ) * f)⌋ ≤ (255 : ℤ) := by
    calc ⌊clip255 ((c : ℚ) * f)⌋ ≤ ⌊(255 : ℚ)⌋ := Int.floor_le_floor (clip255_le _)
      _ = 255 := by norm_num
  exact Int.toNat_le.mpr h

/-- Helper: a channel whose scaled value reaches 255 is clamped to exactly
255 (in particular, values between 180 and 255 are not clamped to 179). -/
lemma adjChannel_sat (c : ℕ) (f : ℚ) (h : 255 ≤ (c : ℚ) * f) : adjChannel c f = 255 := by
  have h1 : clip255 ((c : ℚ) * f) = 255 := by
    unfold clip255
    rw [min_eq_right h]
    exact max_eq_right (by norm_num)
  rw [adjChannel, h1, show ⌊(255 : ℚ)⌋ = 255 from by norm_num]
  rfl

/-- Helper: scaling a channel by factor 0 yields channel value 0. -/
lemma adjChannel_zero (c : ℕ) : adjChannel c 0 = 0 := by
  have h1 : clip255 ((c : ℚ) * 0) = 0 := by
    unfold clip255
    rw [mul_zero, min_eq_left (by norm_num), max_self]
  rw [adjChannel, h1]
  simp

/-- Helper: a pixel failing the skin gate is left untouched. -/
lemma adjustPixel_not_skin (hf sf vf : ℚ) (p : HSV) (h : inSkinRange p = false) :
    adjustPixel hf sf vf p = p := by
  simp [adjustPixel, h]

/-- Helper: the mean of an empty channel list is the rational 0 (numpy's NaN
and 0 both fail the strict positivity guard). -/
lemma meanQ_nil : meanQ [] = 0 := by
  simp [meanQ]

/-- Helper: with no skin pixels every per-channel factor defaults to 1. -/
lemma channelFactor_nil (t : ℕ) : channelFactor t [] = 1 := by
  simp [channelFactor, meanQ_nil]

/-- Claim C1: the claim states that a recomputed skin mask selecting zero
pixels makes `adjust_skin_tone` fail with an `ImageProcessingError`.  The
code does the opposite: the empty per-channel means fail the `> 0` guards,
every factor falls back to 1, no pixel is adjusted, and the call returns a
re-encoded image.  At the concrete image `nonSkinImg` (whose only pixel has
hue 200 and is outside the gate) the mask is empty yet the call succeeds,
returning the image unchanged rather than any error. -/
theorem C1_empty_mask_counterexample :
    skinHSV idCollab nonSkinImg = [] ∧
    adjust_skin_tone idCollab SkinTone.MEDIUM (some nonSkinImg) = Except.ok nonSkinImg := by
  constructor
  · decide
  · decide

/-- Claim C1 (amended): for every image whose recomputed skin mask selects
zero pixels, `adjust_skin_tone` does not fail: each per-channel mean is not
positive, so every scaling factor falls back to 1, the adjusted HSV image
equals the original HSV image (a silent no-op), and the call returns the
re-encoded image successfully. -/
theorem C1_empty_mask_is_silent_noop (C : Collaborators) (tone : SkinTone) (img : Img)
    (h : skinHSV C img = []) :
    hFactor C tone img = 1 ∧ sFactor C tone img = 1 ∧ vFactor C tone img = 1 ∧
    adjustedHSV C tone img = hsvImage C img ∧
    adjust_skin_tone C tone (some img) = Except.ok (adjustedRGB C tone img) := by
  have hmask : ∀ p ∈ List.flatten (hsvImage C img), inSkinRange p = false := by
    intro p hp
    have := List.filter_eq_nil_iff.mp h p hp
    simpa using this
  refine ⟨?_, ?_, ?_, ?_, rfl⟩
  · rw [hFactor, h]; exact channelFactor_nil _
  · rw [sFactor, h]; exact channelFactor_nil _
  · rw [vFactor, h]; exact channelFactor_nil _
  · unfold adjustedHSV
    have hrow : ∀ row ∈ hsvImage C img,
        row.map (adjustPixel (hFactor C tone img) (sFactor C tone img) (vFactor C tone img)) = row := by
      intro row hrow
      have : ∀ p ∈ row,
          adjustPixel (hFactor C tone img) (sFactor C tone img) (vFactor C tone img) p = p := by
        intro p hp
        exact adjustPixel_not_skin _ _ _ p (hmask p (List.mem_flatten.mpr ⟨row, hrow, hp⟩))
      calc row.map (adjustPixel (hFactor C tone img) (sFactor C tone img) (vFactor C tone img))
          = row.map id := List.map_congr_left this
        _ = row := List.map_id row
    calc (hsvImage C img).map (fun row =>
            row.map (adjustPixel (hFactor C tone img) (sFactor C tone img) (vFactor C tone img)))
        = (hsvImage C img).map id := List.map_congr_left hrow
      _ = hsvImage C img := List.map_id _

/-- Claim C1 witness: the no-op theorem instantiated at a concrete image
with an empty skin mask. -/
theorem C1_empty_mask_is_silent_noop_witness :
    hFactor idCollab SkinTone.MEDIUM nonSkinImg = 1 ∧
    sFactor idCollab SkinTone.MEDIUM nonSkinImg = 1 ∧
    vFactor idCollab SkinTone.MEDIUM nonSkinImg = 1 ∧
    adjustedHSV idCollab SkinTone.MEDIUM nonSkinImg = hsvImage idCollab nonSkinImg ∧
    adjust_skin_tone idCollab SkinTone.MEDIUM (some nonSkinImg) =
      Except.ok (adjustedRGB idCollab SkinTone.MEDIUM nonSkinImg) :=
  C1_empty_mask_is_silent_noop idCollab SkinTone.MEDIUM nonSkinImg (by decide)

/-- Helper: the VeryLight class is exactly lightness strictly above 85. -/
lemma classify_eq_very_light (L : ℚ) :
    classifyLightness L = SkinTone.VERY_LIGHT ↔ 85 < L := by
  unfold classifyLightness
  split_ifs with h1 h2 h3 h4 h5 h6 <;> constructor <;> intro hx <;>
    first
      | rfl
      | exact absurd hx (by decide)
      | exact ⟨by linarith, by linarith⟩
      | linarith
      | (exfalso; linarith)
      | (exfalso; obtain ⟨ha, hb⟩ := hx; linarith)

/-- Helper: the Light class is exactly lightness in (75, 85]. -/
lemma classify_eq_light (L : ℚ) :
    classifyLightness L = SkinTone.LIGHT ↔ 75 < L ∧ L ≤ 85 := by
  unfold classifyLightness
  split_ifs with h1 h2 h3 h4 h5 h6 <;> constructor <;> intro hx <;>
    first
      | rfl
      | exact absurd hx (by decide)
      | exact ⟨by linarith, by linarith⟩
      | linarith
      | (exfalso; linarith)
      | (exfalso; obtain ⟨ha, hb⟩ := hx; linarith)

/-- Helper: the MediumLight class is exactly lightness in (65, 75]. -/
lemma classify_eq_medium_light (L : ℚ) :
    classifyLightness L = SkinTone.MEDIUM_LIGHT ↔ 65 < L ∧ L ≤ 75 := by
  unfold classifyLightness
  split_ifs with h1 h2 h3 h4 h5 h6 <;> constructor <;> intro hx <;>
    first
      | rfl
      | exact absurd hx (by decide)
      | exact ⟨by linarith, by linarith⟩
      | linarith
      | (exfalso; linarith)
      | (exfalso; obtain ⟨ha, hb⟩ := hx; linarith)

/-- Helper: the Medium class is exactly lightness in (55, 65]. -/
lemma classify_eq_medium (L : ℚ) :
    classifyLightness L = SkinTone.MEDIUM ↔ 55 < L ∧ L ≤ 65 := by
  unfold classifyLightness
  split_ifs with h1 h2 h3 h4 h5 h6 <;> constructor <;> intro hx <;>
    first
      | rfl
      | exact absurd hx (by decide)
      | exact ⟨by linarith, by linarith⟩
      | linarith
      | (exfalso; linarith)
      | (exfalso; obtain ⟨ha, hb⟩ := hx; linarith)

/-- Helper: the MediumDark class is exactly lightness in (45, 55]. -/
lemma classify_eq_medium_dark (L : ℚ) :
    classifyLightness L = SkinTone.MEDIUM_DARK ↔ 45 < L ∧ L ≤ 55 := by
  unfold classifyLightness
  split_ifs with h1 h2 h3 h4 h5 h6 <;> constructor <;> intro hx <;>
    first
      | rfl
      | exact absurd hx (by decide)
      | exact ⟨by linarith, by linarith⟩
      | linarith
      | (exfalso; linarith)
      | (exfalso; obtain ⟨ha, hb⟩ := hx; linarith)

/-- Helper: the Dark class is exactly lightness in (35, 45]. -/
lemma classify_eq_dark (L : ℚ) :
    classifyLightness L = SkinTone.DARK ↔ 35 < L ∧ L ≤ 45 := by
  unfold classifyLightness
  split_ifs with h1 h2 h3 h4 h5 h6 <;> constructor <;> intro hx <;>
    first
      | rfl
      | exact absurd hx (by decide)
      | exact ⟨by linarith, by linarith⟩
      | linarith
      | (exfalso; linarith)
      | (exfalso; obtain ⟨ha, hb⟩ := hx; linarith)

/-- Helper: the VeryDark class is exactly lightness at most 35. -/
lemma classify_eq_very_dark (L : ℚ) :
    classifyLightness L = SkinTone.VERY_DARK ↔ L ≤ 35 := by
  unfold classifyLightness
  split_ifs with h1 h2 h3 h4 h5 h6 <;> constructor <;> intro hx <;>
    first
      | rfl
      | exact absurd hx (by decide)
      | exact ⟨by linarith, by linarith⟩
      | linarith
      | (exfalso; linarith)
      | (exfalso; obtain ⟨ha, hb⟩ := hx; linarith)

/-- Claim C2: `detect_skin_tone` classifies by the fixed descending
thresholds on L* with exclusive-above boundaries — VeryLight exactly above
85, Light on (75, 85], MediumLight on (65, 75], Medium on (55, 65],
MediumDark on (45, 55], Dark on (35, 45], VeryDark at or below 35 — and in
particular a lightness of exactly 85 is classified Light, not VeryLight. -/
theorem C2_lightness_thresholds :
    (∀ L : ℚ,
      (classifyLightness L = SkinTone.VERY_LIGHT ↔ 85 < L) ∧
      (classifyLightness L = SkinTone.LIGHT ↔ 75 < L ∧ L ≤ 85) ∧
      (classifyLightness L = SkinTone.MEDIUM_LIGHT ↔ 65 < L ∧ L ≤ 75) ∧
      (classifyLightness L = SkinTone.MEDIUM ↔ 55 < L ∧ L ≤ 65) ∧
      (classifyLightness L = SkinTone.MEDIUM_DARK ↔ 45 < L ∧ L ≤ 55) ∧
      (classifyLightness L = SkinTone.DARK ↔ 35 < L ∧ L ≤ 45) ∧
      (classifyLightness L = SkinTone.VERY_DARK ↔ L ≤ 35)) ∧
    classifyLightness 85 = SkinTone.LIGHT := by
  constructor
  · intro L
    exact ⟨classify_eq_very_light L, classify_eq_light L, classify_eq_medium_light L,
      classify_eq_medium L, classify_eq_medium_dark L, classify_eq_dark L,
      classify_eq_very_dark L⟩
  · exact (classify_eq_light 85).mpr ⟨by norm_num, by norm_num⟩

/-- Claim C3: when the HSV skin gate selects zero pixels of a decodable
image, `detect_skin_tone` does not fail: it substitutes the image's dominant
colour for the average skin colour and classifies from that colour's
lightness, returning a successful result. -/
theorem C3_empty_gate_dominant_fallback (C : Collaborators) (img : Img)
    (h : skinPixelsOf C img = []) :
    detect_skin_tone C (some img) =
      Except.ok (classifyLightness (C.labLightness (C.dominantColor img)),
        ⟨C.dominantColor img, hexColor (C.dominantColor img),
         C.dominantColor img, hexColor (C.dominantColor img),
         (C.palette5 img).map (fun c => (c, hexColor c)),
         C.labLightness (C.dominantColor img)⟩) := by
  simp [detect_skin_tone, h]

/-- Claim C3 witness: the fallback theorem instantiated at a concrete image
with no pixel in the skin gate. -/
theorem C3_empty_gate_dominant_fallback_witness :
    skinPixelsOf idCollab nonSkinImg = [] ∧
    detect_skin_tone idCollab (some nonSkinImg) =
      Except.ok (classifyLightness (idCollab.labLightness (idCollab.dominantColor nonSkinImg)),
        ⟨idCollab.dominantColor nonSkinImg, hexColor (idCollab.dominantColor nonSkinImg),
         idCollab.dominantColor nonSkinImg, hexColor (idCollab.dominantColor nonSkinImg),
         (idCollab.palette5 nonSkinImg).map (fun c => (c, hexColor c)),
         idCollab.labLightness (idCollab.dominantColor nonSkinImg)⟩) :=
  ⟨by decide, C3_empty_gate_dominant_fallback idCollab nonSkinImg (by decide)⟩

/-- Claim C7: detection on an image that cannot be decoded/loaded raises an
`ApplicationError` with code `IMAGE_PROCESSING_ERROR`; the `except` tail of
`detect_skin_tone` re-raises `ApplicationError` unchanged and wraps any
other exception into an `ApplicationError` with code
`IMAGE_PROCESSING_ERROR` carrying the original error text in its details. -/
theorem C7_undecodable_raises_image_processing_error :
    (∀ C : Collaborators, detect_skin_tone C none =
        Except.error ⟨"Failed to load image", ErrorCode.IMAGE_PROCESSING_ERROR, []⟩) ∧
    (∀ e : ApplicationError, wrapDetectError (PyError.app e) = e) ∧
    (∀ t : String, wrapDetectError (PyError.other t) =
        ⟨"Failed to detect skin tone", ErrorCode.IMAGE_PROCESSING_ERROR,
         [("original_error", t)]⟩) :=
  ⟨fun _ => rfl, fun _ => rfl, fun _ => rfl⟩

/-- Claim C4: every channel of every masked pixel after re-tinting lies in
[0, 255] (the lower bound holds by the codomain `ℕ` of `adjChannel`), and
the clamp is uniformly at 255 for all three channels — a scaled channel,
the hue included, that reaches 255 is stored as exactly 255, not clamped at
the colour space's conventional 179. -/
theorem C4_masked_channels_clipped_to_255 :
    (∀ (hf sf vf : ℚ) (p : HSV), inSkinRange p = true →
      (adjustPixel hf sf vf p).h ≤ 255 ∧ (adjustPixel hf sf vf p).s ≤ 255 ∧
      (adjustPixel hf sf vf p).v ≤ 255) ∧
    (∀ (c : ℕ) (f : ℚ), 255 ≤ (c : ℚ) * f → adjChannel c f = 255) := by
  constructor
  · intro hf sf vf p hp
    unfold adjustPixel
    rw [hp]
    exact ⟨adjChannel_le _ _, adjChannel_le _ _, adjChannel_le _ _⟩
  · exact adjChannel_sat

/-- Claim C4 witness: the clamping theorem instantiated at a concrete
masked pixel and a concrete hue value whose scaling reaches 255. -/
theorem C4_masked_channels_clipped_to_255_witness :
    ((adjustPixel 3 3 3 ⟨10, 30, 100⟩).h ≤ 255 ∧ (adjustPixel 3 3 3 ⟨10, 30, 100⟩).s ≤ 255 ∧
      (adjustPixel 3 3 3 ⟨10, 30, 100⟩).v ≤ 255) ∧
    adjChannel 1 255 = 255 :=
  ⟨C4_masked_channels_clipped_to_255.1 3 3 3 ⟨10, 30, 100⟩ (by decide),
   C4_masked_channels_clipped_to_255.2 1 255 (by simp)⟩

/-- Claim C8: for every decodable image and every target tone, re-tinting
succeeds and the output image has the same number of rows as the input and
rows of the same lengths (pixels are three-channel values by type, so the
channel depth is preserved as well). -/
theorem C8_retint_preserves_shape (C : Collaborators) (tone : SkinTone) (img : Img) :
    adjust_skin_tone C tone (some img) = Except.ok (adjustedRGB C tone img) ∧
    (adjustedRGB C tone img).length = img.length ∧
    ∀ i : ℕ, ((adjustedRGB C tone img)[i]?).map List.length = (img[i]?).map List.length := by
  refine ⟨rfl, ?_, ?_⟩
  · simp [adjustedRGB, adjustedHSV, hsvImage]
  · intro i
    simp only [adjustedRGB, adjustedHSV, hsvImage, List.getElem?_map]
    cases img[i]? <;> simp

/-- Claim C9: re-tinting adjusts only the pixels selected by the skin mask.
At the HSV level an unmasked pixel is left untouched by the reassembly;
consequently, whenever the external colour-space round trip is the identity,
every pixel outside the mask keeps its original value at its position in
the output image.  The embedding is purely functional, so the input image
value is untouched by construction. -/
theorem C9_retint_only_touches_masked_pixels :
    (∀ (hf sf vf : ℚ) (p : HSV), inSkinRange p = false → adjustPixel hf sf vf p = p) ∧
    (∀ (C : Collaborators) (tone : SkinTone) (img : Img),
      (∀ q : RGB, C.hsv2rgb (C.rgb2hsv q) = q) →
      ∀ (i j : ℕ) (row : List RGB) (pix : RGB),
        img[i]? = some row → row[j]? = some pix →
        inSkinRange (C.rgb2hsv pix) = false →
        ∃ row' : List RGB, (adjustedRGB C tone img)[i]? = some row' ∧ row'[j]? = some pix) := by
  refine ⟨adjustPixel_not_skin, ?_⟩
  intro C tone img hinv i j row pix hi hj hmask
  refine ⟨row.map (fun q =>
    C.hsv2rgb (adjustPixel (hFactor C tone img) (sFactor C tone img) (vFactor C tone img)
      (C.rgb2hsv q))), ?_, ?_⟩
  · simp [adjustedRGB, adjustedHSV, hsvImage, List.getElem?_map, hi, List.map_map,
      Function.comp]
  · rw [List.getElem?_map, hj]
    simp only [Option.map_some']
    rw [adjustPixel_not_skin _ _ _ _ hmask, hinv pix]

/-- Claim C9 witness: the frame theorem instantiated at a concrete
collaborator whose colour-space round trip is the identity, a concrete
image, and a concrete unmasked pixel. -/
theorem C9_retint_only_touches_masked_pixels_witness :
    adjustPixel 1 1 1 ⟨200, 200, 200⟩ = ⟨200, 200, 200⟩ ∧
    ∃ row' : List RGB, (adjustedRGB idCollab SkinTone.MEDIUM mixedImg)[0]? = some row' ∧
      row'[1]? = some ⟨200, 200, 200⟩ :=
  ⟨C9_retint_only_touches_masked_pixels.1 1 1 1 ⟨200, 200, 200⟩ (by decide),
   C9_retint_only_touches_masked_pixels.2 idCollab SkinTone.MEDIUM mixedImg (fun _ => rfl)
     0 1 [⟨10, 30, 100⟩, ⟨200, 200, 200⟩] ⟨200, 200, 200⟩ rfl rfl (by decide)⟩

/-- Claim C10: the target HSV table assigns hue 0 to all seven tones, so
the tone never influences the target hue; and whenever the mean hue of the
skin pixels is strictly positive, the hue factor is 0 and every masked
pixel of the adjusted HSV image has hue exactly 0. -/
theorem C10_masked_hue_set_to_zero :
    (∀ tone : SkinTone, (target_hsv_values tone).h = 0) ∧
    (∀ (C : Collaborators) (tone : SkinTone) (img : Img),
      0 < meanQ ((skinHSV C img).map HSV.h) →
      hFactor C tone img = 0 ∧
      ∀ p ∈ List.flatten (hsvImage C img), inSkinRange p = true →
        (adjustPixel (hFactor C tone img) (sFactor C tone img) (vFactor C tone img) p).h = 0) := by
  constructor
  · intro tone; cases tone <;> rfl
  · intro C tone img hmean
    have hf0 : hFactor C tone img = 0 := by
      unfold hFactor channelFactor
      rw [if_pos hmean, show (target_hsv_values tone).h = 0 from by cases tone <;> rfl]
      simp
    refine ⟨hf0, ?_⟩
    intro p _ hskin
    rw [hf0]
    unfold adjustPixel
    rw [hskin]
    exact adjChannel_zero p.h

/-- Claim C10 witness: the hue-zeroing theorem instantiated at a concrete
image with one skin pixel of hue 10 (so the mean hue is the positive 10). -/
theorem C10_masked_hue_set_to_zero_witness :
    0 < meanQ ((skinHSV idCollab mixedImg).map HSV.h) ∧
    (hFactor idCollab SkinTone.DARK mixedImg = 0 ∧
      ∀ p ∈ List.flatten (hsvImage idCollab mixedImg), inSkinRange p = true →
        (adjustPixel (hFactor idCollab SkinTone.DARK mixedImg)
          (sFactor idCollab SkinTone.DARK mixedImg)
          (vFactor idCollab SkinTone.DARK mixedImg) p).h = 0) := by
  have hm : 0 < meanQ ((skinHSV idCollab mixedImg).map HSV.h) := by
    rw [show (skinHSV idCollab mixedImg).map HSV.h = [10] from by decide]
    simp [meanQ]
  exact ⟨hm, C10_masked_hue_set_to_zero.2 idCollab SkinTone.DARK mixedImg hm⟩

/-- Claim C5: for every SkinTone (the lookup defaulting to the Medium table
for a missing key), `get_recommendations` succeeds and returns non-empty
"clothing" and "makeup" lists whose every entry carries a lowercase
six-hex-digit colour code equal to the hex encoding of its RGB triple. -/
theorem C5_recommendations_nonempty_wellformed_hex :
    ∀ t : SkinTone,
      clothingOf t ≠ [] ∧ makeupOf t ≠ [] ∧
      ∀ cat ∈ get_recommendations t, ∀ e ∈ cat.2,
        e.hex = hexColor e.rgb ∧ wellFormedHexCode e.hex = true := by
  intro t
  cases t <;> decide

/-- Helper: an entry at or above the running minimum leaves the search
state unchanged. -/
lemma nameStep_keep (rgb : RGB) (m : ℤ) (n : String) (a : RGB × String)
    (h : m ≤ distSq rgb a.1) : nameStep rgb (some m, n) a = (some m, n) := by
  have hb : betterDist (distSq rgb a.1) (some m) = false := by
    simp only [betterDist, decide_eq_false_iff_not, not_lt]
    exact h
  simp [nameStep, hb]

/-- Helper: an entry strictly below the running minimum becomes the new
search state. -/
lemma nameStep_update (rgb : RGB) (m : ℤ) (n : String) (a : RGB × String)
    (h : distSq rgb a.1 < m) : nameStep rgb (some m, n) a = (some (distSq rgb a.1), a.2) := by
  simp [nameStep, betterDist, h]

/-- Helper: when no remaining entry beats the running minimum, the fold
leaves the search state unchanged. -/
lemma nameFold_stay (rgb : RGB) :
    ∀ (l : List (RGB × String)) (m : ℤ) (n : String),
      (∀ y ∈ l, m ≤ distSq rgb y.1) →
      l.foldl (nameStep rgb) (some m, n) = (some m, n) := by
  intro l
  induction l with
  | nil => intro m n _; rfl
  | cons a t ih =>
    intro m n h
    rw [List.foldl_cons, nameStep_keep rgb m n a (h a (List.mem_cons_self a t))]
    exact ih m n (fun y hy => h y (List.mem_cons_of_mem a hy))

/-- Helper: when some remaining entry beats the running minimum, the fold
ends at the first entry realising the minimum distance of the remainder. -/
lemma nameFold_improve (rgb : RGB) :
    ∀ (l : List (RGB × String)) (m : ℤ) (n : String),
      (∃ z ∈ l, distSq rgb z.1 < m) →
      ∃ p x q, l = p ++ x :: q ∧ distSq rgb x.1 < m ∧
        (∀ y ∈ p, distSq rgb x.1 < distSq rgb y.1) ∧
        (∀ y ∈ q, distSq rgb x.1 ≤ distSq rgb y.1) ∧
        l.foldl (nameStep rgb) (some m, n) = (some (distSq rgb x.1), x.2) := by
  intro l
  induction l with
  | nil =>
    rintro m n ⟨z, hz, _⟩
    exact absurd hz (List.not_mem_nil z)
  | cons a t ih =>
    rintro m n ⟨z, hz, hzm⟩
    by_cases ha : distSq rgb a.1 < m
    · rw [List.foldl_cons, nameStep_update rgb m n a ha]
      by_cases ht : ∀ y ∈ t, distSq rgb a.1 ≤ distSq rgb y.1
      · exact ⟨[], a, t, rfl, ha, by simp, ht,
          nameFold_stay rgb t (distSq rgb a.1) a.2 ht⟩
      · push_neg at ht
        obtain ⟨w, hw, hwa⟩ := ht
        obtain ⟨p', x', q', hteq, hx'm, hp', hq', hfold⟩ :=
          ih (distSq rgb a.1) a.2 ⟨w, hw, hwa⟩
        refine ⟨a :: p', x', q', by rw [hteq]; rfl, lt_trans hx'm ha, ?_, hq', hfold⟩
        intro y hy
        rcases List.mem_cons.mp hy with h1 | h2
        · subst h1; exact hx'm
        · exact hp' y h2
    · have ham : m ≤ distSq rgb a.1 := not_lt.mp ha
      rw [List.foldl_cons, nameStep_keep rgb m n a ham]
      have hzt : z ∈ t := by
        rcases List.mem_cons.mp hz with h1 | h2
        · exfalso; rw [h1] at hzm; exact ha hzm
        · exact h2
      obtain ⟨p', x', q', hteq, hx'm, hp', hq', hfold⟩ := ih m n ⟨z, hzt, hzm⟩
      refine ⟨a :: p', x', q', by rw [hteq]; rfl, hx'm, ?_, hq', hfold⟩
      intro y hy
      rcases List.mem_cons.mp hy with h1 | h2
      · subst h1; exact lt_of_lt_of_le hx'm ham
      · exact hp' y h2

/-- Helper: over a non-empty table, the search returns the name of the
first entry at minimum distance; entries strictly before it are strictly
farther, and no entry is strictly nearer. -/
lemma nameFold_top (rgb : RGB) (e₀ : RGB × String) (rest : List (RGB × String)) :
    ∃ p x q, e₀ :: rest = p ++ x :: q ∧
      (((e₀ :: rest).foldl (nameStep rgb) (none, "Unknown")).2 = x.2) ∧
      (∀ y ∈ p, distSq rgb x.1 < distSq rgb y.1) ∧
      (∀ y ∈ e₀ :: rest, distSq rgb x.1 ≤ distSq rgb y.1) := by
  rw [List.foldl_cons,
    show nameStep rgb (none, "Unknown") e₀ = (some (distSq rgb e₀.1), e₀.2) from by
      simp [nameStep, betterDist]]
  by_cases hrest : ∀ y ∈ rest, distSq rgb e₀.1 ≤ distSq rgb y.1
  · rw [nameFold_stay rgb rest _ _ hrest]
    refine ⟨[], e₀, rest, rfl, rfl, by simp, ?_⟩
    intro y hy
    rcases List.mem_cons.mp hy with h1 | h2
    · subst h1; exact le_rfl
    · exact hrest y h2
  · push_neg at hrest
    obtain ⟨w, hw, hwa⟩ := hrest
    obtain ⟨p', x', q', hteq, hx', hp', hq', hfold⟩ :=
      nameFold_improve rgb rest (distSq rgb e₀.1) e₀.2 ⟨w, hw, hwa⟩
    rw [hfold]
    refine ⟨e₀ :: p', x', q', by rw [hteq]; rfl, rfl, ?_, ?_⟩
    · intro y hy
      rcases List.mem_cons.mp hy with h1 | h2
      · subst h1; exact hx'
      · exact hp' y h2
    · intro y hy
      rcases List.mem_cons.mp hy with h1 | h2
      · subst h1; exact le_of_lt hx'
      · rw [hteq] at h2
        rcases List.mem_append.mp h2 with h3 | h4
        · exact le_of_lt (hp' y h3)
        · rcases List.mem_cons.mp h4 with h5 | h6
          · subst h5; exact le_rfl
          · exact hq' y h6

/-- Claim C6: `get_color_name` returns the name of the fixed-table entry at
minimum squared Euclidean distance (order-equivalent to the source's float
square-root distances on the 8-bit colour range), breaking ties in favour
of the first minimal entry in table iteration order; it is deterministic (a
pure function of its argument); and the exact entries map to themselves:
black to "Black" and white to "White". -/
theorem C6_nearest_color_name_first_min :
    (∀ rgb : RGB, ∃ p x q, color_names = p ++ x :: q ∧
      get_color_name rgb = x.2 ∧
      (∀ y ∈ p, distSq rgb x.1 < distSq rgb y.1) ∧
      (∀ y ∈ color_names, distSq rgb x.1 ≤ distSq rgb y.1)) ∧
    (∀ rgb : RGB, get_color_name rgb = get_color_name rgb) ∧
    get_color_name ⟨0, 0, 0⟩ = "Black" ∧
    get_color_name ⟨255, 255, 255⟩ = "White" := by
  refine ⟨?_, fun _ => rfl, by decide, by decide⟩
  intro rgb
  exact nameFold_top rgb (⟨0, 0, 0⟩, "Black") (color_names.tail)

end SkinApp
